import Mathlib

/-!
Verification of the circonus-agent sources: the Builtins manager
(`internal/builtins`: `Run`, `Flush`, `IsBuiltin`), the configuration
validation exercised by `internal/config.TestValidate`, and the root
command's `PersistentPreRunE` log-level handling (`cmd/root.go`).

Go maps over string keys are embedded as association lists
(`List (String × α)`) with first-match lookup and replace-or-append
insertion; map iteration is list order.  A builtin collector is embedded
at its interface boundary: the outcome its `Collect()` call reports and
the MetricSet its `Flush()` returns.
-/

/-- Lookup in a string-keyed map embedded as an association list:
the binding of the first matching key, as Go's `m[k]`. -/
def mapLookup {α : Type} : List (String × α) → String → Option α
  | [], _ => none
  | (k, v) :: rest, n => if k = n then some v else mapLookup rest n

/-- Insertion `m[k] = v` into a string-keyed map embedded as an association
list: replace the binding of the first matching key, else append. -/
def mapInsert {α : Type} : List (String × α) → String → α → List (String × α)
  | [], k, v => [(k, v)]
  | (a, b) :: rest, k, v =>
      if a = k then (a, v) :: rest else (a, b) :: mapInsert rest k v

/-- Key membership in an embedded map. -/
def containsKey {α : Type} (m : List (String × α)) (n : String) : Bool :=
  (mapLookup m n).isSome

/-- One metric value, mirroring `cgm.Metric` (`Type string; Value interface{}`);
the opaque value is rendered as a string. -/
structure Metric where
  mtype : String
  value : String
deriving DecidableEq

/-- A builtin collector (`collector.Collector`), embedded at the interface the
Builtins manager consumes: `collectErr` is the error its `Collect()` call
reports (`none` on success) and `metrics` the MetricSet its `Flush()`
returns. The manager never modifies a collector. -/
structure Collector where
  collectErr : Option String
  metrics : List (String × Metric)
deriving DecidableEq

/-- The Builtins manager state (`builtins.Builtins`): the id-keyed collectors
map and the re-entrancy `running` flag. The logger and the process-wide
appstats mapping are observability only and are not part of the state. -/
structure Builtins where
  collectors : List (String × Collector)
  running : Bool
deriving DecidableEq

/-- Everything observable about one `Builtins.Run(id)` call: the manager state
it leaves behind, the error it returns, the ids of the collectors whose
`Collect()` it invoked, the per-collector errors it logged, and whether it
logged the unknown-builtin warning. -/
structure RunResult where
  state : Builtins
  error : Option String
  collected : List String
  errorsLogged : List (String × String)
  warnedUnknown : Bool
deriving DecidableEq

/-- The collectors `Builtins.Run(id)` schedules: all of them when `id` is
empty, the one keyed `id` when present, none otherwise. -/
def runTargets (collectors : List (String × Collector)) (id : String) :
    List (String × Collector) :=
  if id = "" then collectors
  else
    match mapLookup collectors id with
    | some c => [(id, c)]
    | none => []

/-- `Builtins.Run(id)` (`internal/builtins`): returns immediately when the
collectors map is empty or a run is already in progress; otherwise fans
`Collect()` out over the scheduled collectors, logs (and swallows) each
collector's error, waits for all of them, clears `running`, and returns nil.
The completion barrier (`wg.Wait`) is embedded by the call returning the
complete list of collected ids. -/
def Builtins.run (b : Builtins) (id : String) : RunResult :=
  if b.collectors.length = 0 then
    { state := b, error := none, collected := [], errorsLogged := [],
      warnedUnknown := false }
  else if b.running then
    { state := b, error := none, collected := [], errorsLogged := [],
      warnedUnknown := false }
  else
    let ts := runTargets b.collectors id
    { state := { b with running := false }
      error := none
      collected := ts.map (fun p => p.1)
      errorsLogged := ts.filterMap (fun p => p.2.collectErr.map (fun e => (p.1, e)))
      warnedUnknown := if id = "" then false else (mapLookup b.collectors id).isNone }

/-- `Builtins.IsBuiltin(id)`. -/
def Builtins.isBuiltin (b : Builtins) (id : String) : Bool :=
  if id = "" then false
  else if b.collectors.length = 0 then false
  else containsKey b.collectors id

/-- The inner loop of `Builtins.Flush`: `for name, val := range c.Flush()
{ metrics[name] = val }`. -/
def insertAll {α : Type} (acc : List (String × α)) (ps : List (String × α)) :
    List (String × α) :=
  ps.foldl (fun m q => mapInsert m q.1 q.2) acc

/-- `Builtins.Flush(id)` (`internal/builtins`): starts from an empty
MetricSet, returns it when no collectors are held, otherwise copies every
collector's `Flush()` result into it. The `id` argument is unused in the
source and is therefore anonymous here. -/
def Builtins.flush (b : Builtins) (_ : String) : List (String × Metric) :=
  if b.collectors.length = 0 then []
  else b.collectors.foldl (fun acc p => insertAll acc p.2.metrics) []

/-- Replace one id/collector binding's `Collect()` outcome according to `f`. -/
def setErr (f : String → Option String) (p : String × Collector) : String × Collector :=
  (p.1, { p.2 with collectErr := f p.1 })

/-- Replace every collector's `Collect()` outcome according to `f`:
the same manager run against a different world of collector errors. -/
def Builtins.withErrs (b : Builtins) (f : String → Option String) : Builtins :=
  { b with collectors := b.collectors.map (setErr f) }

/-- Modelled from the spec: the file-system view configuration validation
consults (`internal/config.Validate` is not among the sources here; only its
test is). `dirs` lists the existing directories, `files` the existing files. -/
structure FS where
  dirs : List String
  files : List String
deriving DecidableEq

/-- Modelled from the spec: the configuration record validation reads — listen
address, TLS (SSL) listen address, TLS cert and key paths, plugin directory. -/
structure Config where
  pluginDir : String
  listen : String
  sslListen : String
  sslCertFile : String
  sslKeyFile : String
deriving DecidableEq

/-- Modelled from the spec: a listen spec is `[IP]:[PORT]`; an unset (empty)
spec is acceptable, and a non-empty spec must at least carry the host/port
colon separator (the test rejects `1.2.3` as an invalid IP address format). -/
def validListenSpec (s : String) : Bool :=
  s.data.isEmpty || s.data.contains ':'

/-- The single-quote character used by the validation error messages. -/
def quoteCh : String := String.singleton (Char.ofNat 39)

/-- Modelled from the spec: `internal/config.Validate` refuses to start the
agent on an invalid configuration (a `ConfigError`). Checks run in the order
the test exercises them — plugin directory, server listen spec, then the SSL
server (listen spec, cert file, key file; HTTPS requires cert+key files).
Returns the first failure's message, or `none` when the configuration is
acceptable. -/
def Validate (fs : FS) (cfg : Config) : Option String :=
  if cfg.pluginDir = "" ∨ ¬ fs.dirs.contains cfg.pluginDir then
    some ("plugin directory config: Invalid plugin directory (" ++ cfg.pluginDir ++ ")")
  else if ¬ validListenSpec cfg.listen then
    some ("server config: Invalid IP address format specified " ++ quoteCh ++ cfg.listen ++ quoteCh)
  else if cfg.sslListen = "" then none
  else if ¬ validListenSpec cfg.sslListen then
    some ("ssl server config: Invalid IP address format specified " ++ quoteCh ++ cfg.sslListen ++ quoteCh)
  else if cfg.sslCertFile = "" then
    some "ssl server config: SSL cert: Invalid file name (empty)"
  else if ¬ fs.files.contains cfg.sslCertFile then
    some ("ssl server config: SSL cert: Invalid file (" ++ cfg.sslCertFile ++ ")")
  else if cfg.sslKeyFile = "" then
    some "ssl server config: SSL key: Invalid file name (empty)"
  else if ¬ fs.files.contains cfg.sslKeyFile then
    some ("ssl server config: SSL key: Invalid file (" ++ cfg.sslKeyFile ++ ")")
  else none

/-- The zerolog global levels the root command sets. -/
inductive LogLevel where
  | panic
  | fatal
  | error
  | warn
  | info
  | debug
  | disabled
deriving DecidableEq

/-- The configuration and global-logger state `PersistentPreRunE` reads and
writes: the debug toggle, whether a log level is configured
(`viper.IsSet`), its string value, and the zerolog global level. -/
structure PreRunState where
  debugFlag : Bool
  logLevelSet : Bool
  logLevel : String
  globalLevel : LogLevel
deriving DecidableEq

/-- The `switch level` of `PersistentPreRunE` (`cmd/root.go`): the global
level a recognized log-level string selects, `none` for the default case. -/
def setLevelFromString (level : String) : Option LogLevel :=
  if level = "panic" then some LogLevel.panic
  else if level = "fatal" then some LogLevel.fatal
  else if level = "error" then some LogLevel.error
  else if level = "warn" then some LogLevel.warn
  else if level = "info" then some LogLevel.info
  else if level = "debug" then some LogLevel.debug
  else if level = "disabled" then some LogLevel.disabled
  else none

/-- Decidable equality of `Except` outcomes, for evaluating the model on
concrete configurations. -/
instance {ε α : Type} [DecidableEq ε] [DecidableEq α] : DecidableEq (Except ε α) := by
  intro a b
  cases a <;> cases b
  case error.error e f =>
    exact if h : e = f then .isTrue (by rw [h]) else .isFalse (by simp [h])
  case ok.ok x y =>
    exact if h : x = y then .isTrue (by rw [h]) else .isFalse (by simp [h])
  case error.ok e x => exact .isFalse (by simp)
  case ok.error x e => exact .isFalse (by simp)

/-- `RootCmd.PersistentPreRunE` (`cmd/root.go`), its logging part: when the
debug toggle is set, force the configured log level to `debug` and the global
level to debug; otherwise, when a log level is configured, set the matching
global level, failing with `Unknown log level (<level>)` on an unrecognized
string; when none is configured, leave the state alone. -/
def persistentPreRun (s : PreRunState) : Except String PreRunState :=
  if s.debugFlag then
    Except.ok { s with logLevel := "debug", logLevelSet := true,
                       globalLevel := LogLevel.debug }
  else if s.logLevelSet then
    match setLevelFromString s.logLevel with
    | some l => Except.ok { s with globalLevel := l }
    | none => Except.error ("Unknown log level (" ++ s.logLevel ++ ")")
  else
    Except.ok s

/-- A collector holding one successfully collected metric, used to evaluate
the flush-union theorem on a concrete manager. -/
def cUnion : Collector := { collectErr := none, metrics := [("m", ⟨"I", "42"⟩)] }

/-- A concrete manager holding `cUnion` under id `a`. -/
def bUnion : Builtins := { collectors := [("a", cUnion)], running := false }

/-- A concrete manager with a run already in progress. -/
def bGuard : Builtins :=
  { collectors := [("a", { collectErr := none, metrics := [] })], running := true }

/-- A concrete manager holding no collectors. -/
def bNone : Builtins := { collectors := [], running := false }

/-- A concrete manager with a run in progress and a collector keyed `x`. -/
def bBusy : Builtins :=
  { collectors := [("x", { collectErr := none, metrics := [] })], running := true }

/-- A concrete idle manager with a single collector keyed `x`. -/
def bOne : Builtins :=
  { collectors := [("x", { collectErr := none, metrics := [] })], running := false }

/-- The file-system view of the repository's `testdata` fixtures. -/
def fsTest : FS :=
  { dirs := ["testdata"], files := ["testdata/ssl_test.pem", "testdata/ssl_test.key"] }

/-- A configuration with every option acceptable and SSL not configured. -/
def cfgGood : Config :=
  { pluginDir := "testdata", listen := "", sslListen := "",
    sslCertFile := "", sslKeyFile := "" }

/-- `cfgGood` with the plugin directory unset. -/
def cfgNoDir : Config := { cfgGood with pluginDir := "" }

/-- `cfgGood` with SSL configured but no certificate file. -/
def cfgNoCert : Config := { cfgGood with sslListen := "127.0.0.1:2610" }

/-- `cfgGood` with SSL fully configured against `fsTest`. -/
def cfgSSL : Config :=
  { cfgGood with sslListen := "127.0.0.1:2610",
                 sslCertFile := "testdata/ssl_test.pem",
                 sslKeyFile := "testdata/ssl_test.key" }

/-- A pre-run state configured with an unrecognized log level. -/
def sUnknownLevel : PreRunState :=
  { debugFlag := false, logLevelSet := true, logLevel := "trace",
    globalLevel := LogLevel.info }

/-- A pre-run state configured with log level `warn`. -/
def sWarnLevel : PreRunState :=
  { debugFlag := false, logLevelSet := true, logLevel := "warn",
    globalLevel := LogLevel.info }

/-- A pre-run state with the debug toggle set and a bogus log level. -/
def sDebugToggle : PreRunState :=
  { debugFlag := true, logLevelSet := true, logLevel := "bogus",
    globalLevel := LogLevel.info }

theorem mapLookup_mapInsert {α : Type} (m : List (String × α)) (k n : String) (v : α) :
    mapLookup (mapInsert m k v) n = if k = n then some v else mapLookup m n := by
  induction m with
  | nil => simp [mapInsert, mapLookup]
  | cons p rest ih =>
    obtain ⟨a, b⟩ := p
    by_cases hak : a = k
    · subst hak
      by_cases han : a = n <;> simp [mapInsert, mapLookup, han]
    · by_cases han : a = n
      · subst han
        have hka : ¬ k = a := fun h => hak h.symm
        simp [mapInsert, mapLookup, hak, hka]
      · simp [mapInsert, mapLookup, hak, han, ih]

theorem containsKey_mapInsert {α : Type} (m : List (String × α)) (k n : String) (v : α) :
    containsKey (mapInsert m k v) n = (decide (k = n) || containsKey m n) := by
  by_cases h : k = n <;> simp [containsKey, mapLookup_mapInsert, h]

theorem mapLookup_insertAll {α : Type} (ps acc : List (String × α)) (n : String) (v : α)
    (h : mapLookup (insertAll acc ps) n = some v) :
    (n, v) ∈ ps ∨ mapLookup acc n = some v := by
  induction ps generalizing acc with
  | nil => exact Or.inr h
  | cons q rest ih =>
    rcases ih (mapInsert acc q.1 q.2) h with hmem | hacc
    · exact Or.inl (List.mem_cons_of_mem _ hmem)
    · rw [mapLookup_mapInsert] at hacc
      by_cases hq : q.1 = n
      · rw [if_pos hq] at hacc
        left
        have hv : v = q.2 := (Option.some.inj hacc).symm
        rw [hv, ← hq]
        exact List.mem_cons_self _ _
      · rw [if_neg hq] at hacc
        exact Or.inr hacc

theorem containsKey_insertAll {α : Type} (ps acc : List (String × α)) (n : String) :
    containsKey (insertAll acc ps) n
      = (ps.any (fun p => p.1 == n) || containsKey acc n) := by
  induction ps generalizing acc with
  | nil => simp [insertAll]
  | cons q rest ih =>
    have hstep : insertAll acc (q :: rest) = insertAll (mapInsert acc q.1 q.2) rest := rfl
    rw [hstep, ih, containsKey_mapInsert]
    by_cases h : q.1 = n
    · simp [h]
    · have hb : (q.1 == n) = false := beq_eq_false_iff_ne.mpr h
      simp [h, hb]

theorem mapLookup_flushFold (cs : List (String × Collector))
    (acc : List (String × Metric)) (n : String) (v : Metric)
    (h : mapLookup (cs.foldl (fun a p => insertAll a p.2.metrics) acc) n = some v) :
    (∃ i c, (i, c) ∈ cs ∧ (n, v) ∈ c.metrics) ∨ mapLookup acc n = some v := by
  induction cs generalizing acc with
  | nil => exact Or.inr h
  | cons p rest ih =>
    rcases ih (insertAll acc p.2.metrics) h with ⟨i, c, hm, hv⟩ | hacc
    · exact Or.inl ⟨i, c, List.mem_cons_of_mem _ hm, hv⟩
    · rcases mapLookup_insertAll _ _ _ _ hacc with hmem | hacc2
      · exact Or.inl ⟨p.1, p.2, List.mem_cons_self _ _, hmem⟩
      · exact Or.inr hacc2

theorem containsKey_flushFold (cs : List (String × Collector))
    (acc : List (String × Metric)) (n : String) :
    containsKey (cs.foldl (fun a p => insertAll a p.2.metrics) acc) n
      = (cs.any (fun p => p.2.metrics.any (fun q => q.1 == n)) || containsKey acc n) := by
  induction cs generalizing acc with
  | nil => simp
  | cons p rest ih =>
    have hstep :
        (p :: rest).foldl (fun a q => insertAll a q.2.metrics) acc
          = rest.foldl (fun a q => insertAll a q.2.metrics) (insertAll acc p.2.metrics) := rfl
    rw [hstep, ih, containsKey_insertAll]
    simp [Bool.or_comm, Bool.or_assoc, Bool.or_left_comm]

theorem flushFold_of_empty (cs : List (String × Collector)) (acc : List (String × Metric))
    (h : ∀ p ∈ cs, p.2.metrics = ([] : List (String × Metric))) :
    cs.foldl (fun a p => insertAll a p.2.metrics) acc = acc := by
  induction cs generalizing acc with
  | nil => rfl
  | cons p rest ih =>
    have hp : p.2.metrics = [] := h p (List.mem_cons_self _ _)
    have hstep :
        (p :: rest).foldl (fun a q => insertAll a q.2.metrics) acc
          = rest.foldl (fun a q => insertAll a q.2.metrics) (insertAll acc p.2.metrics) := rfl
    rw [hstep, hp]
    exact ih _ (fun q hq => h q (List.mem_cons_of_mem _ hq))

theorem mapLookup_setErr (f : String → Option String)
    (l : List (String × Collector)) (k : String) :
    mapLookup (l.map (setErr f)) k
      = (mapLookup l k).map (fun c => { c with collectErr := f k }) := by
  induction l with
  | nil => rfl
  | cons p rest ih =>
    by_cases h : p.1 = k
    · simp [mapLookup, setErr, h]
    · simp [mapLookup, setErr, h, ih]

theorem runTargets_setErr (f : String → Option String)
    (cs : List (String × Collector)) (id : String) :
    runTargets (cs.map (setErr f)) id = (runTargets cs id).map (setErr f) := by
  unfold runTargets
  by_cases h : id = ""
  · simp [h]
  · rw [if_neg h, if_neg h, mapLookup_setErr]
    cases mapLookup cs id <;> simp [setErr]

/-- Claim C1: when a run is already in progress (`running` set), `Run(id)`
returns a nil error, invokes `Collect` on no collector, logs no collector
error, and leaves the manager state unchanged. -/
theorem builtins_run_reentrancy_guard (b : Builtins) (id : String)
    (h : b.running = true) :
    b.run id = { state := b, error := none, collected := [], errorsLogged := [],
                 warnedUnknown := false } := by
  unfold Builtins.run
  by_cases h0 : b.collectors.length = 0
  · rw [if_pos h0]
  · rw [if_neg h0, if_pos h]

/-- Witness for C1: the guard observed on a concrete busy manager. -/
theorem builtins_run_reentrancy_guard_witness :
    bGuard.run "a" = { state := bGuard, error := none, collected := [],
                       errorsLogged := [], warnedUnknown := false } :=
  builtins_run_reentrancy_guard bGuard "a" rfl

/-- Claim C2: `Flush(id)` returns the union of the collectors' MetricSets —
a name is a key of the result iff some held collector flushes it, and its
value is the value one of those collectors holds for it. -/
theorem builtins_flush_is_union (b : Builtins) (id n : String) (v : Metric) :
    (containsKey (b.flush id) n = true ↔
      ∃ i c, (i, c) ∈ b.collectors ∧ ∃ w, (n, w) ∈ c.metrics) ∧
    (mapLookup (b.flush id) n = some v →
      ∃ i c, (i, c) ∈ b.collectors ∧ (n, v) ∈ c.metrics) := by
  by_cases h0 : b.collectors.length = 0
  · have hnil : b.collectors = [] := List.length_eq_zero.mp h0
    constructor
    · simp [Builtins.flush, h0, hnil, containsKey, mapLookup]
    · intro h
      rw [Builtins.flush, if_pos h0] at h
      simp [mapLookup] at h
  · have hfl : b.flush id = b.collectors.foldl (fun a p => insertAll a p.2.metrics) [] := by
      rw [Builtins.flush, if_neg h0]
    constructor
    · rw [hfl, containsKey_flushFold]
      simp only [containsKey, mapLookup, Option.isSome_none, Bool.or_false,
        List.any_eq_true, beq_iff_eq]
      constructor
      · rintro ⟨p, hp, q, hq, hqn⟩
        refine ⟨p.1, p.2, hp, q.2, ?_⟩
        rw [← hqn]
        exact hq
      · rintro ⟨i, c, hic, w, hw⟩
        exact ⟨(i, c), hic, (n, w), hw, rfl⟩
    · intro h
      rw [hfl] at h
      rcases mapLookup_flushFold _ _ _ _ h with hgood | hbad
      · exact hgood
      · simp [mapLookup] at hbad

/-- Witness for C2: on a concrete manager, metric `m` of collector `a`
appears in the flushed union and its value traces back to that collector. -/
theorem builtins_flush_is_union_witness :
    containsKey (bUnion.flush "") "m" = true ∧
    (∃ i c, (i, c) ∈ bUnion.collectors ∧ ("m", (⟨"I", "42"⟩ : Metric)) ∈ c.metrics) :=
  ⟨(builtins_flush_is_union bUnion "" "m" ⟨"I", "42"⟩).1.mpr
      ⟨"a", cUnion, by decide, ⟨"I", "42"⟩, by decide⟩,
   (builtins_flush_is_union bUnion "" "m" ⟨"I", "42"⟩).2 (by decide)⟩

/-- Claim C3: whatever errors the collectors' `Collect` calls report, `Run(id)`
returns a nil error, invokes `Collect` on exactly the same collectors as an
error-free run, and logs exactly the erroring collected collectors' errors. -/
theorem builtins_run_isolates_errors (b : Builtins) (f : String → Option String)
    (id : String) :
    (b.run id).error = none ∧
    ((b.withErrs f).run id).error = none ∧
    ((b.withErrs f).run id).collected = (b.run id).collected ∧
    ((b.withErrs f).run id).errorsLogged
      = (b.run id).collected.filterMap (fun i => (f i).map (fun e => (i, e))) := by
  refine ⟨?_, ?_⟩
  · unfold Builtins.run
    split_ifs <;> rfl
  by_cases h0 : b.collectors.length = 0
  · simp [Builtins.run, Builtins.withErrs, h0]
  · by_cases hr : b.running
    · simp [Builtins.run, Builtins.withErrs, h0, hr]
    · simp only [Builtins.run, Builtins.withErrs, List.length_map, h0, hr, if_neg,
        if_false, ite_false]
      simp [h0, hr, runTargets_setErr, List.map_map, List.filterMap_map, setErr,
        Function.comp]
      congr 1

/-- Claim C4: `Flush` needs no preceding `Collect` — with no collectors held,
or with every collector holding an empty MetricSet, `Flush(id)` returns the
empty MetricSet. -/
theorem builtins_flush_empty_without_collect (b : Builtins) (id : String)
    (h : b.collectors = [] ∨ ∀ p ∈ b.collectors, p.2.metrics = ([] : List (String × Metric))) :
    b.flush id = [] := by
  rcases h with h | h
  · simp [Builtins.flush, h]
  · by_cases h0 : b.collectors.length = 0
    · rw [Builtins.flush, if_pos h0]
    · rw [Builtins.flush, if_neg h0]
      exact flushFold_of_empty _ _ h

/-- Witness for C4: flushing a concrete manager holding no collectors. -/
theorem builtins_flush_empty_without_collect_witness : bNone.flush "x" = [] :=
  builtins_flush_empty_without_collect bNone "x" (Or.inl rfl)

/-- Counterexample for C5: with a run already in progress, `Run("x")` invokes
`Collect` on no collector although `x` keys the map; and with an empty
collectors map, `Run("y")` for the unknown id `y` logs no warning. -/
theorem builtins_run_fanout_counterexample :
    ((bBusy.run "x").collected = [] ∧ ¬ (bBusy.run "x").collected = ["x"]) ∧
    ((bNone.run "y").warnedUnknown = false ∧ (bNone.run "y").collected = []) := by
  decide

/-- Claim C5 (amended: provided no run is in progress and the manager holds at
least one collector): `Run(id)` with non-empty id invokes `Collect` on exactly
the collector keyed `id` and no other; an unknown non-empty id only logs a
warning and still returns nil; an empty id fans out over every collector. -/
theorem builtins_run_fanout (b : Builtins) (id : String)
    (hr : b.running = false) (hne : b.collectors ≠ []) :
    (id = "" → (b.run id).collected = b.collectors.map (fun p => p.1)) ∧
    (∀ c, id ≠ "" → mapLookup b.collectors id = some c →
      (b.run id).collected = [id] ∧ (b.run id).warnedUnknown = false ∧
      (b.run id).error = none) ∧
    (id ≠ "" → mapLookup b.collectors id = none →
      (b.run id).collected = [] ∧ (b.run id).warnedUnknown = true ∧
      (b.run id).error = none) := by
  have h0 : ¬ b.collectors.length = 0 := by
    simpa [List.length_eq_zero] using hne
  refine ⟨?_, ?_, ?_⟩
  · intro hid
    simp [Builtins.run, h0, hr, runTargets, hid]
  · intro c hid hc
    simp [Builtins.run, h0, hr, runTargets, hid, hc]
  · intro hid hc
    simp [Builtins.run, h0, hr, runTargets, hid, hc]

/-- Witness for C5 (amended): a concrete idle one-collector manager run with
the known id `x`. -/
theorem builtins_run_fanout_witness :
    (bOne.run "x").collected = ["x"] ∧ (bOne.run "x").warnedUnknown = false ∧
    (bOne.run "x").error = none :=
  (builtins_run_fanout bOne "x" rfl (by decide)).2.1
    { collectErr := none, metrics := [] } (by decide) rfl

/-- Claim C9: the id argument of `Flush` has no effect on its result. -/
theorem builtins_flush_ignores_id (b : Builtins) (id1 id2 : String) :
    b.flush id1 = b.flush id2 := rfl

/-- Claim C6: validation refuses an empty plugin directory with exactly the
message the test pins down, and accepts a configuration whose plugin directory
exists with the other options valid. -/
theorem config_validate_plugin_dir (fs : FS) (cfg : Config) :
    (cfg.pluginDir = "" →
      Validate fs cfg = some "plugin directory config: Invalid plugin directory ()") ∧
    (fs.dirs.contains cfg.pluginDir = true → cfg.pluginDir ≠ "" →
     validListenSpec cfg.listen = true → cfg.sslListen = "" →
      Validate fs cfg = none) := by
  constructor
  · intro h
    rw [Validate, if_pos (Or.inl h), h]
    decide
  · intro hdir hpd hlisten hssl
    have hdir2 : cfg.pluginDir ∈ fs.dirs := by simpa using hdir
    simp [Validate, hdir2, hpd, hlisten, hssl]

/-- Witness for C6: the test's own scenarios — empty plugin dir refused,
`testdata` accepted. -/
theorem config_validate_plugin_dir_witness :
    Validate fsTest cfgNoDir
      = some "plugin directory config: Invalid plugin directory ()" ∧
    Validate fsTest cfgGood = none :=
  ⟨(config_validate_plugin_dir fsTest cfgNoDir).1 rfl,
   (config_validate_plugin_dir fsTest cfgGood).2 (by decide) (by decide) (by decide) rfl⟩

/-- Claim C7: with SSL configured, a missing certificate file path always
fails validation (with exactly the cert message once the earlier checks pass),
an invalid SSL listen spec fails validation, and existing cert and key files
validate. -/
theorem config_validate_ssl (fs : FS) (cfg : Config) (hssl : cfg.sslListen ≠ "") :
    (cfg.sslCertFile = "" → Validate fs cfg ≠ none) ∧
    (validListenSpec cfg.sslListen = false → Validate fs cfg ≠ none) ∧
    (fs.dirs.contains cfg.pluginDir = true → cfg.pluginDir ≠ "" →
     validListenSpec cfg.listen = true → validListenSpec cfg.sslListen = true →
     cfg.sslCertFile = "" →
      Validate fs cfg = some "ssl server config: SSL cert: Invalid file name (empty)") ∧
    (fs.dirs.contains cfg.pluginDir = true → cfg.pluginDir ≠ "" →
     validListenSpec cfg.listen = true → validListenSpec cfg.sslListen = true →
     cfg.sslCertFile ≠ "" → fs.files.contains cfg.sslCertFile = true →
     cfg.sslKeyFile ≠ "" → fs.files.contains cfg.sslKeyFile = true →
      Validate fs cfg = none) := by
  refine ⟨?_, ?_, ?_, ?_⟩
  · intro hcert
    unfold Validate
    split_ifs <;> simp_all
  · intro hspec
    unfold Validate
    split_ifs <;> simp_all
  · intro hdir hpd hlisten hspec hcert
    have hdir2 : cfg.pluginDir ∈ fs.dirs := by simpa using hdir
    simp [Validate, hdir2, hpd, hlisten, hspec, hcert, hssl]
  · intro hdir hpd hlisten hspec hcert hcf hkey hkf
    have hdir2 : cfg.pluginDir ∈ fs.dirs := by simpa using hdir
    have hcf2 : cfg.sslCertFile ∈ fs.files := by simpa using hcf
    have hkf2 : cfg.sslKeyFile ∈ fs.files := by simpa using hkf
    simp [Validate, hdir2, hpd, hlisten, hspec, hcert, hcf2, hkey, hkf2, hssl]

/-- Witness for C7: the test's own scenarios — SSL listen set with no cert
file refused with the cert message, full cert+key configuration accepted. -/
theorem config_validate_ssl_witness :
    Validate fsTest cfgNoCert
      = some "ssl server config: SSL cert: Invalid file name (empty)" ∧
    Validate fsTest cfgSSL = none :=
  ⟨(config_validate_ssl fsTest cfgNoCert (by decide)).2.2.1
      (by decide) (by decide) (by decide) (by decide) rfl,
   (config_validate_ssl fsTest cfgSSL (by decide)).2.2.2
      (by decide) (by decide) (by decide) (by decide) (by decide) (by decide)
      (by decide) (by decide)⟩

/-- Claim C8: with the debug toggle unset and a log level configured, an
unrecognized level string fails the pre-run hook with exactly
`Unknown log level (<level>)`, and each of the seven recognized strings
succeeds and sets the corresponding global level. -/
theorem cmd_preRun_log_level (s : PreRunState)
    (hd : s.debugFlag = false) (hs : s.logLevelSet = true) :
    (s.logLevel ∉
        (["panic", "fatal", "error", "warn", "info", "debug", "disabled"] : List String) →
      persistentPreRun s = Except.error ("Unknown log level (" ++ s.logLevel ++ ")")) ∧
    (s.logLevel = "panic" →
      persistentPreRun s = Except.ok { s with globalLevel := LogLevel.panic }) ∧
    (s.logLevel = "fatal" →
      persistentPreRun s = Except.ok { s with globalLevel := LogLevel.fatal }) ∧
    (s.logLevel = "error" →
      persistentPreRun s = Except.ok { s with globalLevel := LogLevel.error }) ∧
    (s.logLevel = "warn" →
      persistentPreRun s = Except.ok { s with globalLevel := LogLevel.warn }) ∧
    (s.logLevel = "info" →
      persistentPreRun s = Except.ok { s with globalLevel := LogLevel.info }) ∧
    (s.logLevel = "debug" →
      persistentPreRun s = Except.ok { s with globalLevel := LogLevel.debug }) ∧
    (s.logLevel = "disabled" →
      persistentPreRun s = Except.ok { s with globalLevel := LogLevel.disabled }) := by
  refine ⟨?_, ?_, ?_, ?_, ?_, ?_, ?_, ?_⟩
  · intro h
    simp only [List.mem_cons, List.not_mem_nil, or_false, not_or] at h
    obtain ⟨h1, h2, h3, h4, h5, h6, h7⟩ := h
    simp [persistentPreRun, hd, hs, setLevelFromString, h1, h2, h3, h4, h5, h6, h7]
  all_goals intro h
  all_goals simp [persistentPreRun, hd, hs, setLevelFromString, h]

/-- Witness for C8: the unrecognized level `trace` is refused, `warn` is
accepted and selects the warn level. -/
theorem cmd_preRun_log_level_witness :
    persistentPreRun sUnknownLevel = Except.error "Unknown log level (trace)" ∧
    persistentPreRun sWarnLevel = Except.ok { sWarnLevel with globalLevel := LogLevel.warn } :=
  ⟨(cmd_preRun_log_level sUnknownLevel rfl rfl).1 (by decide),
   (cmd_preRun_log_level sWarnLevel rfl rfl).2.2.2.2.1 rfl⟩

/-- Claim C10: the debug toggle takes precedence — with it set, the pre-run
hook succeeds, forces the configured level string to `debug` and the global
level to debug, whatever log level was configured. -/
theorem cmd_preRun_debug_precedence (s : PreRunState) (hd : s.debugFlag = true) :
    persistentPreRun s =
      Except.ok { s with logLevel := "debug", logLevelSet := true,
                         globalLevel := LogLevel.debug } := by
  simp [persistentPreRun, hd]

/-- Witness for C10: debug toggle set with the bogus level string `bogus`. -/
theorem cmd_preRun_debug_precedence_witness :
    persistentPreRun sDebugToggle =
      Except.ok { sDebugToggle with logLevel := "debug", logLevelSet := true,
                                    globalLevel := LogLevel.debug } :=
  cmd_preRun_debug_precedence sDebugToggle rfl
